import Mathlib

/-!
Shallow embedding of the virtio-gpu driver core (src/dev/virtio_gpu.c):
the descriptor-chain fill helpers, the GPU state machine (reset, set_mode,
flush, get_available_modes), the framebuffer/clipping engine and the
drawing primitives.  All machine integers are modelled as `Nat` with
explicit reduction modulo `2^32` (uint32) or `256` (uint8) where the C
code performs modular arithmetic; `int` values in Bresenham's algorithm
are modelled as `Int`.  NULL pointers are modelled by `Option`.
-/

/-- Modulus of uint32 arithmetic (2^32). -/
def U32 : Nat := 4294967296

/-- nk_gpu_dev_box_t: integer bounding box (all fields uint32). -/
structure Box where
  x : Nat
  y : Nat
  width : Nat
  height : Nat
deriving DecidableEq, Repr

/-- struct virtio_gpu_rect. -/
structure Rect where
  x : Nat
  y : Nat
  width : Nat
  height : Nat
deriving DecidableEq, Repr

/-- struct virtio_gpu_display_one: one scanout of the display-info response. -/
structure ScanoutInfo where
  r : Rect
  enabled : Nat
  flags : Nat
deriving DecidableEq, Repr

/-- A zeroed scanout entry (ZERO of the response buffer). -/
def zeroScanout : ScanoutInfo := ⟨⟨0, 0, 0, 0⟩, 0, 0⟩

/-- nk_gpu_dev_bitmap_t: width, height and a pixel array (modelled as a
function from linear index to 32-bit raw pixels). -/
structure Bitmap where
  width : Nat
  height : Nat
  pixels : Nat → Nat

/-- The software state of a device, struct virtio_gpu_dev.  The transport
handles, the lock and the VGA text snapshot are external and not modelled;
`frame_buffer = none` models a NULL framebuffer pointer, and a live
framebuffer is a function from linear pixel index to 32-bit raw value. -/
structure GpuState where
  have_disp_info : Bool
  pmodes : List ScanoutInfo
  cur_mode : Nat
  frame_buffer : Option (Nat → Nat)
  frame_box : Box
  clipping_box : Box
  cursor_buffer : Bool
  cursor_box : Box

/-- pmodes array access, disp_info_resp.pmodes[i]. -/
def GpuState.pmode (d : GpuState) (i : Nat) : ScanoutInfo :=
  d.pmodes.getD i zeroScanout

/-- The all-zero initial device state (memset(dev,0,sizeof(*dev)) at init). -/
def initState : GpuState :=
  { have_disp_info := false
    pmodes := List.replicate 16 zeroScanout
    cur_mode := 0
    frame_buffer := none
    frame_box := ⟨0, 0, 0, 0⟩
    clipping_box := ⟨0, 0, 0, 0⟩
    cursor_buffer := false
    cursor_box := ⟨0, 0, 0, 0⟩ }

/-- in_box: is the coordinate within the box?  The C comparisons are on
uint32, so the sums wrap modulo 2^32. -/
def in_box (b : Box) (cx cy : Nat) : Prop :=
  b.x ≤ cx ∧ cx < (b.x + b.width) % U32 ∧ b.y ≤ cy ∧ cy < (b.y + b.height) % U32

instance (b : Box) (cx cy : Nat) : Decidable (in_box b cx cy) := by
  unfold in_box; infer_instance

/-- get_pixel_pointer: linear framebuffer offset of coordinate (x,y);
`y*frame_box.width + x` is computed in uint32. -/
def pixel_index (d : GpuState) (cx cy : Nat) : Nat :=
  (cy * d.frame_box.width + cx) % U32

/-- get_bitmap_pixel_pointer: returns `none` (NULL) when the coordinate is
out of the bitmap's bounds, otherwise the pixel at x + y*width. -/
def get_bitmap_pixel_pointer (bm : Bitmap) (x y : Nat) : Option Nat :=
  if x ≥ bm.width ∨ y ≥ bm.height then none
  else some (bm.pixels (x + y * bm.width))

/-- saturating_add8: uint8 sum with wraparound detection. -/
def saturating_add8 (a b : Nat) : Nat :=
  if (a + b) % 256 < a then 255 else (a + b) % 256

/-- saturating_sub8: uint8 difference with wraparound detection (the C
subtraction `a - b` truncated to uint8 equals `(a + 256 - b) % 256` for
byte inputs). -/
def saturating_sub8 (a b : Nat) : Nat :=
  if (a + 256 - b) % 256 > a then 0 else (a + 256 - b) % 256

/-- saturating_mul8: product computed in uint16, clamped at 255. -/
def saturating_mul8 (a b : Nat) : Nat :=
  if (a * b) % 65536 > 255 then 255 else (a * b) % 65536

/-- saturating_div8: division by zero yields 255, otherwise integer
division. -/
def saturating_div8 (a b : Nat) : Nat :=
  if b = 0 then 255 else a / b

/-- Byte i of a raw 32-bit pixel (the union's channel[i], little-endian). -/
def chan (p i : Nat) : Nat := p / 256 ^ i % 256

/-- Rebuild a raw pixel from its four channels. -/
def packChannels (c0 c1 c2 c3 : Nat) : Nat :=
  c0 + c1 * 256 + c2 * 65536 + c3 * 16777216

/-- The per-channel loops of apply_with_blit: channel i of the result is
f(old channel i, new channel i). -/
def mapChannels (f : Nat → Nat → Nat) (oldp newp : Nat) : Nat :=
  packChannels (f (chan oldp 0) (chan newp 0)) (f (chan oldp 1) (chan newp 1))
    (f (chan oldp 2) (chan newp 2)) (f (chan oldp 3) (chan newp 3))

/-- nk_gpu_dev_bit_blit_op_t. -/
inductive BlitOp where
  | copy | bitNot | bitAnd | bitOr | nand | nor | bitXor | xnor
  | plus | minus | multiply | divide
deriving DecidableEq, Repr

/-- apply_with_blit: oldpixel = op(oldpixel,newpixel).  The C `~` on uint32
is xor with 0xFFFFFFFF. -/
def apply_with_blit (oldp newp : Nat) (op : BlitOp) : Nat :=
  match op with
  | .copy => newp
  | .bitNot => Nat.xor oldp 4294967295
  | .bitAnd => Nat.land oldp newp
  | .bitOr => Nat.lor oldp newp
  | .nand => Nat.xor (Nat.land oldp newp) 4294967295
  | .nor => Nat.xor (Nat.lor oldp newp) 4294967295
  | .bitXor => Nat.xor oldp newp
  | .xnor => Nat.xor (Nat.xor oldp newp) 4294967295
  | .plus => mapChannels saturating_add8 oldp newp
  | .minus => mapChannels saturating_sub8 oldp newp
  | .multiply => mapChannels saturating_mul8 oldp newp
  | .divide => mapChannels saturating_div8 oldp newp

/-- clip_apply_with_blit: blit src into the framebuffer at (cx,cy) if the
coordinate is inside the clipping box, else do nothing.  A write through a
NULL framebuffer is UB in C; it is modelled as a no-op and the theorems
only quote states with a live framebuffer. -/
def clip_apply_with_blit (d : GpuState) (cx cy : Nat) (src : Nat) (op : BlitOp) :
    GpuState :=
  if in_box d.clipping_box cx cy then
    { d with frame_buffer := d.frame_buffer.map (fun f => fun k =>
        if k = pixel_index d cx cy then
          apply_with_blit (f (pixel_index d cx cy)) src op
        else f k) }
  else d

/-- Read the framebuffer pixel at (cx,cy) (dereference of
get_pixel_pointer). -/
def readPixel (d : GpuState) (cx cy : Nat) : Nat :=
  (d.frame_buffer.getD (fun _ => 0)) (pixel_index d cx cy)

/-- graphics_draw_pixel: clipped COPY of the pixel at the location. -/
def graphics_draw_pixel (d : GpuState) (cx cy : Nat) (p : Nat) : GpuState :=
  clip_apply_with_blit d cx cy p .copy

/-- The (i,j) destination offsets of the box-filling loops, in the C
iteration order: i (column) outer, j (row) inner. -/
def boxOffsets (b : Box) : List (Nat × Nat) :=
  (List.range b.width).flatMap (fun i => (List.range b.height).map (fun j => (i, j)))

/-- graphics_fill_box_with_pixel. -/
def graphics_fill_box_with_pixel (d : GpuState) (b : Box) (p : Nat) (op : BlitOp) :
    GpuState :=
  (boxOffsets b).foldl
    (fun d2 ij =>
      clip_apply_with_blit d2 ((b.x + ij.1) % U32) ((b.y + ij.2) % U32) p op) d

/-- The bitmap source lookup of graphics_fill_box_with_bitmap at
destination offset (i,j): bitmap coordinates are reduced modulo the
bitmap's width and height. -/
def bitmapSrc (bm : Bitmap) (i j : Nat) : Option Nat :=
  get_bitmap_pixel_pointer bm (i % bm.width) (j % bm.height)

/-- graphics_fill_box_with_bitmap.  The C code dereferences the bitmap
pixel pointer unconditionally inside apply_with_blit; the NULL case is
modelled by the `getD 0` default (shown unreachable for non-degenerate
bitmaps). -/
def graphics_fill_box_with_bitmap (d : GpuState) (b : Box) (bm : Bitmap)
    (op : BlitOp) : GpuState :=
  (boxOffsets b).foldl
    (fun d2 ij =>
      clip_apply_with_blit d2 ((b.x + ij.1) % U32) ((b.y + ij.2) % U32)
        ((bitmapSrc bm ij.1 ij.2).getD 0) op) d

/-- graphics_copy_box: the source pixel is read from the current
framebuffer at each step (read-then-write in iteration order). -/
def graphics_copy_box (d : GpuState) (srcb dstb : Box) (op : BlitOp) : GpuState :=
  (boxOffsets dstb).foldl
    (fun d2 ij =>
      clip_apply_with_blit d2 ((dstb.x + ij.1) % U32) ((dstb.y + ij.2) % U32)
        (readPixel d2 ((srcb.x + ij.1 % srcb.width) % U32)
          ((srcb.y + ij.2 % srcb.height) % U32)) op) d

/-- graphics_set_clipping_box: a NULL box resets clipping to the frame
box; otherwise the argument is copied verbatim. -/
def graphics_set_clipping_box (d : GpuState) (b : Option Box) : GpuState :=
  match b with
  | none => { d with clipping_box := d.frame_box }
  | some bb => { d with clipping_box := bb }

/-- Conversion of a uint32 value to C int (two's complement). -/
def toInt32 (n : Nat) : Int :=
  if n % U32 < 2147483648 then ((n % U32 : Nat) : Int)
  else ((n % U32 : Nat) : Int) - 4294967296

/-- Conversion of a C int back to uint32 (reduction modulo 2^32). -/
def ofInt32 (z : Int) : Nat := (z % 4294967296).toNat

/-- The plotting loop of graphics_draw_line (Bresenham all-octants).  The
C loop carries (x0,y0,error); each iteration plots (x0,y0) first and the
breaks reproduce the source exactly.  The loop has no fuel in C; the
explicit fuel is shown sufficient in the theorems. -/
def bresList (x1 y1 dx dy sx sy : Int) : Nat → Int → Int → Int → List (Int × Int)
  | 0, _, _, _ => []
  | n + 1, x0, y0, err =>
    (x0, y0) ::
      (if x0 = x1 ∧ y0 = y1 then []
       else
         let e2 := 2 * err
         if dy ≤ e2 then
           if x0 = x1 then []
           else
             if e2 ≤ dx then
               if y0 = y1 then []
               else bresList x1 y1 dx dy sx sy n (x0 + sx) (y0 + sy) (err + dy + dx)
             else bresList x1 y1 dx dy sx sy n (x0 + sx) y0 (err + dy)
         else
           if e2 ≤ dx then
             if y0 = y1 then []
             else bresList x1 y1 dx dy sx sy n x0 (y0 + sy) (err + dx)
           else bresList x1 y1 dx dy sx sy n x0 y0 err)

/-- The coordinates plotted by graphics_draw_line from (ax,ay) to (bx,by),
with dx, sx, dy, sy and the initial error as in the source. -/
def drawLinePlots (ax ay bx byy : Int) : List (Int × Int) :=
  let dx := if 0 < bx - ax then bx - ax else ax - bx
  let sx : Int := if ax < bx then 1 else -1
  let dy := -(if 0 < byy - ay then byy - ay else ay - byy)
  let sy : Int := if ay < byy then 1 else -1
  bresList bx byy dx dy sx sy ((max dx (-dy)).toNat + 1) ax ay (dx + dy)

/-- graphics_draw_line: walk Bresenham's points, routing each through
graphics_draw_pixel (with int → uint32 conversion of the coordinates). -/
def graphics_draw_line (d : GpuState) (ax ay bx byy : Nat) (p : Nat) : GpuState :=
  (drawLinePlots (toInt32 ax) (toInt32 ay) (toInt32 bx) (toInt32 byy)).foldl
    (fun d2 c => graphics_draw_pixel d2 (ofInt32 c.1) (ofInt32 c.2) p) d

/-- graphics_draw_poly: draw_line from point i to point (i+1) mod count
for each i < count.  Array accesses out of the provided list are UB in C
and modelled by a (0,0) default. -/
def graphics_draw_poly (d : GpuState) (coords : List (Nat × Nat)) (count : Nat)
    (p : Nat) : GpuState :=
  (List.range count).foldl
    (fun d2 i =>
      let a := coords.getD i (0, 0)
      let b := coords.getD ((i + 1) % count) (0, 0)
      graphics_draw_line d2 a.1 a.2 b.1 b.2 p) d

/-- A request/response segment: (address, length) pair. -/
structure Seg where
  addr : Nat
  len : Nat
deriving DecidableEq, Repr

/-- struct virtq_desc: one descriptor slot of the shared ring. -/
structure VirtqDesc where
  addr : Nat
  len : Nat
  flags : Nat
  next : Nat
deriving DecidableEq, Repr

/-- VIRTQ_DESC_F_WRITE.  Modelled from the spec: the virtio descriptor
write flag (the virtio_pci header defining it is not in the sources). -/
def VIRTQ_DESC_F_WRITE : Nat := 2

/-- Modelled from the spec: virtio_pci_desc_chain_alloc hands out
descriptor slots from the transport's free pool; the slots a fresh chain
starts from are taken as zeroed. -/
def allocSlot : VirtqDesc := ⟨0, 0, 0, 0⟩

/-- The two slot fills of transact_rw, given the allocated slots and the
index desc_idx[1] of the second slot: slot 0 gets the request with
`flags |= 0` and `next = desc_idx[1]`; slot 1 gets the response with
`flags |= VIRTQ_DESC_F_WRITE` and `next = 0`. -/
def transact_rw_fill (s0 s1 : VirtqDesc) (req resp : Seg) (idx1 : Nat) :
    VirtqDesc × VirtqDesc :=
  (⟨req.addr, req.len, Nat.lor s0.flags 0, idx1⟩,
   ⟨resp.addr, resp.len, Nat.lor s1.flags VIRTQ_DESC_F_WRITE, 0⟩)

/-- The three slot fills of transact_rrw, given the allocated slots and
the indices desc_idx[1], desc_idx[2]. -/
def transact_rrw_fill (s0 s1 s2 : VirtqDesc) (req more resp : Seg)
    (idx1 idx2 : Nat) : VirtqDesc × VirtqDesc × VirtqDesc :=
  (⟨req.addr, req.len, Nat.lor s0.flags 0, idx1⟩,
   ⟨more.addr, more.len, Nat.lor s1.flags 0, idx2⟩,
   ⟨resp.addr, resp.len, Nat.lor s2.flags VIRTQ_DESC_F_WRITE, 0⟩)

/-- The descriptor chain built by transact_rw on freshly allocated slots. -/
def transact_rw_chain (req resp : Seg) (idx1 : Nat) : VirtqDesc × VirtqDesc :=
  transact_rw_fill allocSlot allocSlot req resp idx1

/-- The descriptor chain built by transact_rrw on freshly allocated slots. -/
def transact_rrw_chain (req more resp : Seg) (idx1 idx2 : Nat) :
    VirtqDesc × VirtqDesc × VirtqDesc :=
  transact_rrw_fill allocSlot allocSlot allocSlot req more resp idx1 idx2

/-- Response type tags (enum virtio_gpu_ctrl_type). -/
def VIRTIO_GPU_RESP_OK_NODATA : Nat := 4352

/-- VIRTIO_GPU_RESP_OK_DISPLAY_INFO = 0x1101. -/
def VIRTIO_GPU_RESP_OK_DISPLAY_INFO : Nat := 4353

/-- VIRTIO_GPU_RESP_ERR_UNSPEC = 0x1200. -/
def VIRTIO_GPU_RESP_ERR_UNSPEC : Nat := 4608

/-- The two distinguished resource ids. -/
def SCREEN_RID : Nat := 42

/-- CURSOR_RID = 23 (reserved for the mouse cursor). -/
def CURSOR_RID : Nat := 23

/-- VIRTIO_GPU_FORMAT_R8G8B8A8_UNORM, the pixel format used for 2D mode. -/
def FORMAT_R8G8B8A8 : Nat := 67

/-- The requests the driver publishes on a virtqueue, with the fields the
spec constrains. -/
inductive Cmd where
  | getDisplayInfo
  | create2d (rid fmt w h : Nat)
  | unrefResource (rid : Nat)
  | attachBacking (rid nrEntries entryLen : Nat)
  | detachBacking (rid : Nat)
  | setScanout (r : Rect) (scanoutId rid : Nat)
  | transferToHost2d (r : Rect) (offset rid : Nat)
  | resourceFlush (r : Rect) (rid : Nat)
deriving DecidableEq, Repr

/-- A trace entry: (queue index, completed request). -/
abbrev TraceEntry := Nat × Cmd

/-- The device-side oracle consumed by the driver model: `resps` yields,
for each transact in order, either `none` (the transport layer failed:
descriptor exhaustion or chain-free failure, transact returns -1) or
`some t` (the transaction completed and the response header carries type
tag t); `allocs` yields the outcome of each malloc; `dispPayload` is the
scanout array the device writes for a successful GET_DISPLAY_INFO. -/
structure Env where
  resps : List (Option Nat)
  allocs : List Bool
  dispPayload : List ScanoutInfo

/-- Consume the next transact outcome (an exhausted oracle counts as a
transport failure). -/
def takeResp (e : Env) : Option Nat × Env :=
  match e.resps with
  | [] => (none, { e with resps := [] })
  | r :: rest => (r, { e with resps := rest })

/-- Consume the next malloc outcome (an exhausted oracle counts as a
failed allocation). -/
def takeAlloc (e : Env) : Bool × Env :=
  match e.allocs with
  | [] => (false, { e with allocs := [] })
  | a :: rest => (a, { e with allocs := rest })

/-- update_modes: fetch the display info once; subsequent calls hit the
cache.  On success the response payload is installed and have_disp_info
set. -/
def update_modes (d : GpuState) (e : Env) : Int × GpuState × List TraceEntry × Env :=
  if d.have_disp_info then (0, d, [], e)
  else
    match takeResp e with
    | (none, e1) => (-1, d, [], e1)
    | (some t, e1) =>
      if t ≠ VIRTIO_GPU_RESP_OK_DISPLAY_INFO then
        (-1, d, [(0, Cmd.getDisplayInfo)], e1)
      else
        (0, { d with have_disp_info := true, pmodes := e1.dispPayload },
          [(0, Cmd.getDisplayInfo)], e1)

/-- reset: in a graphics mode, detach the backing, unref the screen
resource, free the framebuffer and return to text mode; in text mode a
no-op.  The device_status register store is external to the model. -/
def resetOp (d : GpuState) (e : Env) : Int × GpuState × List TraceEntry × Env :=
  if d.cur_mode ≠ 0 then
    match takeResp e with
    | (none, e1) => (-1, d, [], e1)
    | (some t1, e1) =>
      if t1 ≠ VIRTIO_GPU_RESP_OK_NODATA then
        (-1, d, [(0, Cmd.detachBacking SCREEN_RID)], e1)
      else
        match takeResp e1 with
        | (none, e2) => (-1, d, [(0, Cmd.detachBacking SCREEN_RID)], e2)
        | (some t2, e2) =>
          if t2 ≠ VIRTIO_GPU_RESP_OK_NODATA then
            (-1, d, [(0, Cmd.detachBacking SCREEN_RID),
                     (0, Cmd.unrefResource SCREEN_RID)], e2)
          else
            (0, { d with frame_buffer := none, cur_mode := 0 },
              [(0, Cmd.detachBacking SCREEN_RID),
               (0, Cmd.unrefResource SCREEN_RID)], e2)
  else (0, d, [], e)

/-- flush: a no-op in text mode; in a graphics mode issue
TRANSFER_TO_HOST_2D then RESOURCE_FLUSH, both on queue 0 with the current
scanout's rectangle and SCREEN_RID, each completing synchronously.  The
driver state is never mutated. -/
def flushOp (d : GpuState) (e : Env) : Int × List TraceEntry × Env :=
  if d.cur_mode = 0 then (0, [], e)
  else
    let pm := d.pmode (d.cur_mode - 1)
    match takeResp e with
    | (none, e1) => (-1, [], e1)
    | (some t1, e1) =>
      let tr1 := [(0, Cmd.transferToHost2d pm.r 0 SCREEN_RID)]
      if t1 ≠ VIRTIO_GPU_RESP_OK_NODATA then (-1, tr1, e1)
      else
        match takeResp e1 with
        | (none, e2) => (-1, tr1, e2)
        | (some t2, e2) =>
          let tr2 := tr1 ++ [(0, Cmd.resourceFlush pm.r SCREEN_RID)]
          if t2 ≠ VIRTIO_GPU_RESP_OK_NODATA then (-1, tr2, e2)
          else (0, tr2, e2)

/-- set_mode: reset to text mode, then for a graphics mode create the
screen resource, allocate and zero the framebuffer, set the frame and
clipping boxes, attach the backing, bind the scanout, record cur_mode,
flush (result ignored), and allocate the cursor framebuffer (on cursor
allocation failure the driver resets and fails).  The VGA text
snapshot/restore calls are external and not modelled. -/
def setModeOp (d : GpuState) (modeNum : Nat) (e : Env) :
    Int × GpuState × List TraceEntry × Env :=
  match resetOp d e with
  | (rcR, d1, trR, e1) =>
    if rcR ≠ 0 then (-1, d1, trR, e1)
    else if modeNum = 0 then (0, d1, trR, e1)
    else
      let pm := d1.pmode (modeNum - 1)
      match takeResp e1 with
      | (none, e2) => (-1, d1, trR, e2)
      | (some tC, e2) =>
        let trC := trR ++ [(0, Cmd.create2d SCREEN_RID FORMAT_R8G8B8A8
          pm.r.width pm.r.height)]
        if tC ≠ VIRTIO_GPU_RESP_OK_NODATA then (-1, d1, trC, e2)
        else
          let fbLen := pm.r.width * pm.r.height * 4
          match takeAlloc e2 with
          | (false, e3) => (-1, { d1 with frame_buffer := none }, trC, e3)
          | (true, e3) =>
            let d2 := { d1 with
              frame_buffer := some (fun _ => 0)
              frame_box := ⟨0, 0, pm.r.width, pm.r.height⟩
              clipping_box := ⟨0, 0, pm.r.width, pm.r.height⟩ }
            match takeResp e3 with
            | (none, e4) => (-1, d2, trC, e4)
            | (some tA, e4) =>
              let trA := trC ++ [(0, Cmd.attachBacking SCREEN_RID 1 fbLen)]
              if tA ≠ VIRTIO_GPU_RESP_OK_NODATA then (-1, d2, trA, e4)
              else
                match takeResp e4 with
                | (none, e5) => (-1, d2, trA, e5)
                | (some tS, e5) =>
                  let trS := trA ++ [(0, Cmd.setScanout pm.r (modeNum - 1)
                    SCREEN_RID)]
                  if tS ≠ VIRTIO_GPU_RESP_OK_NODATA then (-1, d2, trS, e5)
                  else
                    let d3 := { d2 with cur_mode := modeNum }
                    match flushOp d3 e5 with
                    | (_, trF, e6) =>
                      match takeAlloc e6 with
                      | (false, e7) =>
                        match resetOp d3 e7 with
                        | (_, d4, trR2, e8) =>
                          (-1, d4, trS ++ trF ++ trR2, e8)
                      | (true, e7) =>
                        (0, { d3 with cursor_buffer := true,
                                      cursor_box := ⟨0, 0, 64, 64⟩ },
                          trS ++ trF, e7)

/-- nk_gpu_dev_video_mode_t as filled out by fill_out_mode. -/
structure VideoMode where
  modeType : Nat
  width : Nat
  height : Nat
  channel_offset : Int × Int × Int × Int
  flags : Nat
  mouse_cursor_width : Nat
  mouse_cursor_height : Nat
  mode_data : Nat
deriving DecidableEq, Repr

/-- NK_GPU_DEV_MODE_TYPE_TEXT (value from the gpudev interface). -/
def MODE_TYPE_TEXT : Nat := 0

/-- NK_GPU_DEV_MODE_TYPE_GRAPHICS_2D (value from the gpudev interface). -/
def MODE_TYPE_GRAPHICS_2D : Nat := 1

/-- NK_GPU_DEV_HAS_MOUSE_CURSOR flag (value from the gpudev interface). -/
def HAS_MOUSE_CURSOR : Nat := 1

/-- fill_out_mode: mode 0 is the 80x25 text mode; mode k > 0 is a
graphics-2D mode describing scanout k-1, with RGBA channel offsets and a
64x64 cursor. -/
def fill_out_mode (d : GpuState) (modenum : Nat) : VideoMode :=
  if modenum = 0 then
    { modeType := MODE_TYPE_TEXT, width := 80, height := 25
      channel_offset := (0, 1, -1, -1), flags := 0
      mouse_cursor_width := 0, mouse_cursor_height := 0, mode_data := 0 }
  else
    { modeType := MODE_TYPE_GRAPHICS_2D
      width := (d.pmode (modenum - 1)).r.width
      height := (d.pmode (modenum - 1)).r.height
      channel_offset := (0, 1, 2, 3), flags := HAS_MOUSE_CURSOR
      mouse_cursor_width := 64, mouse_cursor_height := 64
      mode_data := modenum }

/-- The mode-filling loop of get_available_modes over the indexed scanout
entries: the loop exits as soon as cur reaches limit, and otherwise emits
one graphics mode per enabled entry. -/
def modeLoop (d : GpuState) (limit : Nat) :
    List (Nat × ScanoutInfo) → Nat → List VideoMode
  | [], _ => []
  | (i, s) :: rest, cur =>
    if cur < limit then
      if s.enabled ≠ 0 then fill_out_mode d (i + 1) :: modeLoop d limit rest (cur + 1)
      else modeLoop d limit rest cur
    else []

/-- The 16 indexed scanout entries scanned by the loop. -/
def indexedScanouts (d : GpuState) : List (Nat × ScanoutInfo) :=
  (List.range 16).map (fun i => (i, d.pmode i))

/-- get_available_modes: fails when fewer than two slots are offered;
otherwise slot 0 is the text mode and the loop adds graphics modes while
the total stays below `limit = if num > 16 then 15 else num - 1`.
Returns (rc, new state, modes produced, count stored back into *num,
trace, env). -/
def get_available_modes (d : GpuState) (num : Nat) (e : Env) :
    Int × GpuState × List VideoMode × Nat × List TraceEntry × Env :=
  if num < 2 then (-1, d, [], num, [], e)
  else
    match update_modes d e with
    | (rcU, d1, trU, e1) =>
      if rcU ≠ 0 then (-1, d1, [], num, trU, e1)
      else
        let limit := if num > 16 then 15 else num - 1
        let modes := fill_out_mode d1 0 :: modeLoop d1 limit (indexedScanouts d1) 1
        (0, d1, modes, modes.length, trU, e1)

/-- The clipping box is contained in the frame box (the spec's containment
invariant, stated through the code's in_box predicate). -/
def clipWithinFrame (d : GpuState) : Prop :=
  ∀ cx cy, in_box d.clipping_box cx cy → in_box d.frame_box cx cy

/-- The framebuffer pixel at linear index k, when a framebuffer exists. -/
def pixAt (d : GpuState) (k : Nat) : Option Nat :=
  d.frame_buffer.map (fun f => f k)

/-- The enabled entries among the 16 indexed scanouts, in index order. -/
def enabledScanouts (d : GpuState) : List (Nat × ScanoutInfo) :=
  (indexedScanouts d).filter (fun is => is.2.enabled != 0)

/-- States reachable from the freshly initialized device through the
public operations (with arbitrary device/allocator oracles and
arguments).  flush and get_mode never mutate the driver state. -/
inductive Reachable : GpuState → Prop where
  | init : Reachable initState
  | set_mode {d} (m : Nat) (e : Env) :
      Reachable d → Reachable (setModeOp d m e).2.1
  | get_modes {d} (n : Nat) (e : Env) :
      Reachable d → Reachable (get_available_modes d n e).2.1
  | clip_box {d} (b : Option Box) :
      Reachable d → Reachable (graphics_set_clipping_box d b)
  | draw_pixel {d} (cx cy p : Nat) :
      Reachable d → Reachable (graphics_draw_pixel d cx cy p)
  | draw_line {d} (ax ay bx byy p : Nat) :
      Reachable d → Reachable (graphics_draw_line d ax ay bx byy p)
  | draw_poly {d} (coords : List (Nat × Nat)) (count p : Nat) :
      Reachable d → Reachable (graphics_draw_poly d coords count p)
  | fill_pixel {d} (b : Box) (p : Nat) (op : BlitOp) :
      Reachable d → Reachable (graphics_fill_box_with_pixel d b p op)
  | fill_bitmap {d} (b : Box) (bm : Bitmap) (op : BlitOp) :
      Reachable d → Reachable (graphics_fill_box_with_bitmap d b bm op)
  | copy_box {d} (sb db : Box) (op : BlitOp) :
      Reachable d → Reachable (graphics_copy_box d sb db op)

/-- States reachable as in `Reachable`, except that every non-NULL
clipping box handed to graphics_set_clipping_box is contained in the
frame box current at the time of the call. -/
inductive GoodReachable : GpuState → Prop where
  | init : GoodReachable initState
  | set_mode {d} (m : Nat) (e : Env) :
      GoodReachable d → GoodReachable (setModeOp d m e).2.1
  | get_modes {d} (n : Nat) (e : Env) :
      GoodReachable d → GoodReachable (get_available_modes d n e).2.1
  | clip_none {d} :
      GoodReachable d → GoodReachable (graphics_set_clipping_box d none)
  | clip_some {d} (bb : Box) :
      GoodReachable d →
      (∀ cx cy, in_box bb cx cy → in_box d.frame_box cx cy) →
      GoodReachable (graphics_set_clipping_box d (some bb))
  | draw_pixel {d} (cx cy p : Nat) :
      GoodReachable d → GoodReachable (graphics_draw_pixel d cx cy p)
  | draw_line {d} (ax ay bx byy p : Nat) :
      GoodReachable d → GoodReachable (graphics_draw_line d ax ay bx byy p)
  | draw_poly {d} (coords : List (Nat × Nat)) (count p : Nat) :
      GoodReachable d → GoodReachable (graphics_draw_poly d coords count p)
  | fill_pixel {d} (b : Box) (p : Nat) (op : BlitOp) :
      GoodReachable d → GoodReachable (graphics_fill_box_with_pixel d b p op)
  | fill_bitmap {d} (b : Box) (bm : Bitmap) (op : BlitOp) :
      GoodReachable d → GoodReachable (graphics_fill_box_with_bitmap d b bm op)
  | copy_box {d} (sb db : Box) (op : BlitOp) :
      GoodReachable d → GoodReachable (graphics_copy_box d sb db op)

/-- Adjacency in the 8-neighborhood, with a real move. -/
def adj8 (u v : Int × Int) : Prop :=
  u ≠ v ∧ (v.1 - u.1).natAbs ≤ 1 ∧ (v.2 - u.2).natAbs ≤ 1

/-- A display-info array with scanout 0 enabled at 1024x768. -/
def oneScanout : List ScanoutInfo :=
  ⟨⟨0, 0, 1024, 768⟩, 1, 0⟩ :: List.replicate 15 zeroScanout

/-- Text-mode state with the display info cached. -/
def demoText : GpuState :=
  { initState with have_disp_info := true, pmodes := oneScanout }

/-- Graphics-mode state on scanout 0 (as set_mode leaves it). -/
def demoGfx : GpuState :=
  { demoText with
    cur_mode := 1
    frame_buffer := some (fun _ => 0)
    frame_box := ⟨0, 0, 1024, 768⟩
    clipping_box := ⟨0, 0, 1024, 768⟩ }

/-- An oracle answering OK_NODATA to the next two transactions. -/
def envOkOk : Env := ⟨[some VIRTIO_GPU_RESP_OK_NODATA,
  some VIRTIO_GPU_RESP_OK_NODATA], [], []⟩

/-- An oracle answering OK to the first transaction, an error to the
second, with one successful allocation. -/
def envOkErr : Env := ⟨[some VIRTIO_GPU_RESP_OK_NODATA,
  some VIRTIO_GPU_RESP_ERR_UNSPEC], [true], []⟩

/-- The empty oracle. -/
def emptyEnv : Env := ⟨[], [], []⟩

/-- The box-preservation invariant of the drawing steps. -/
def SameBoxes (d : GpuState) (x : GpuState) : Prop :=
  x.clipping_box = d.clipping_box ∧ x.frame_box = d.frame_box

/-- A state produced by handing graphics_set_clipping_box a box outside
the (zero-sized) frame box of the freshly initialized device. -/
def c3Bad : GpuState := graphics_set_clipping_box initState (some ⟨0, 0, 1, 1⟩)

/-- The miss-preservation invariant used for C6. -/
def MissInv (d : GpuState) (k0 vf : Nat) (x : GpuState) : Prop :=
  x.clipping_box = d.clipping_box ∧ x.frame_box = d.frame_box ∧
    pixAt x k0 = some vf

/-- A 4x4 graphics state with a 2x2 clipping box and a zeroed
framebuffer. -/
def c6State : GpuState :=
  { initState with
    frame_buffer := some (fun _ => 0)
    frame_box := ⟨0, 0, 4, 4⟩
    clipping_box := ⟨0, 0, 2, 2⟩ }

/-- Does the COPY fill of box b over offsets l write linear index k in
state d? -/
def fillHit (d : GpuState) (b : Box) (l : List (Nat × Nat)) (k : Nat) :
    Bool :=
  l.any (fun ij =>
    decide (in_box d.clipping_box ((b.x + ij.1) % U32) ((b.y + ij.2) % U32)) &&
    (pixel_index d ((b.x + ij.1) % U32) ((b.y + ij.2) % U32) == k))

/-! Helper lemmas shared across the claim theorems. -/

lemma foldl_pres {α : Type} (P : GpuState → Prop) (f : GpuState → α → GpuState)
    (hf : ∀ d a, P d → P (f d a)) :
    ∀ (l : List α) (d : GpuState), P d → P (l.foldl f d) := by
  intro l
  induction l with
  | nil => intro d h; simpa using h
  | cons a l ih =>
    intro d h
    simpa using ih (f d a) (hf d a h)

lemma clip_apply_clipping_box (d : GpuState) (cx cy s : Nat) (op : BlitOp) :
    (clip_apply_with_blit d cx cy s op).clipping_box = d.clipping_box := by
  unfold clip_apply_with_blit
  split <;> rfl

lemma clip_apply_frame_box (d : GpuState) (cx cy s : Nat) (op : BlitOp) :
    (clip_apply_with_blit d cx cy s op).frame_box = d.frame_box := by
  unfold clip_apply_with_blit
  split <;> rfl

/-- Euclidean uniqueness of the framebuffer linear index. -/
lemma index_unique {W a a2 b b2 : Nat} (ha : a < W) (ha2 : a2 < W)
    (h : b * W + a = b2 * W + a2) : a = a2 ∧ b = b2 := by
  have hW : 0 < W := lt_of_le_of_lt (Nat.zero_le a) ha
  have hdiv : ∀ c c2 : Nat, c2 < W → (c * W + c2) / W = c := by
    intro c c2 hc2
    rw [mul_comm, Nat.mul_add_div hW, Nat.div_eq_of_lt hc2, Nat.add_zero]
  have hb : b = b2 := by
    have := congrArg (fun t => t / W) h
    simpa [hdiv b a ha, hdiv b2 a2 ha2] using this
  subst hb
  exact ⟨Nat.add_left_cancel h, rfl⟩

/-- Claim C5: for all 8-bit a and b, saturating_add8 is min(255,a+b),
saturating_sub8 is max(0,a-b) (Nat truncated subtraction),
saturating_mul8 is min(255,a*b), division by zero yields 255 and
division by nonzero b is integer division. -/
theorem c5_saturating_arithmetic (a b : Nat) (ha : a < 256) (hb : b < 256) :
    saturating_add8 a b = min 255 (a + b) ∧
    saturating_sub8 a b = a - b ∧
    saturating_mul8 a b = min 255 (a * b) ∧
    saturating_div8 a 0 = 255 ∧
    (b ≠ 0 → saturating_div8 a b = a / b) := by
  have hmul : a * b ≤ 255 * 255 :=
    Nat.mul_le_mul (Nat.le_of_lt_succ ha) (Nat.le_of_lt_succ hb)
  refine ⟨?_, ?_, ?_, ?_, ?_⟩
  · unfold saturating_add8
    split <;> omega
  · unfold saturating_sub8
    split <;> omega
  · unfold saturating_mul8
    split <;> omega
  · unfold saturating_div8
    simp
  · intro hb0
    unfold saturating_div8
    simp [hb0]

/-- Witness for C5 at a = 200, b = 100. -/
theorem c5_saturating_arithmetic_witness :
    saturating_add8 200 100 = min 255 (200 + 100) ∧
    saturating_sub8 200 100 = 200 - 100 ∧
    saturating_mul8 200 100 = min 255 (200 * 100) ∧
    saturating_div8 200 0 = 255 ∧
    (100 ≠ 0 → saturating_div8 200 100 = 200 / 100) :=
  c5_saturating_arithmetic 200 100 (by decide) (by decide)

/-- Claim C8: the chains built by transact_rw (2 slots) and transact_rrw
(3 slots): each slot i < N-1 carries the i-th request segment with next
pointing at slot i+1 and the device-write flag clear; the last slot
carries the response segment with next null and the write flag set. -/
theorem c8_descriptor_chain_layout (req more resp : Seg) (idx1 idx2 : Nat) :
    ((transact_rw_chain req resp idx1).1.addr = req.addr ∧
     (transact_rw_chain req resp idx1).1.len = req.len ∧
     (transact_rw_chain req resp idx1).1.next = idx1 ∧
     Nat.land (transact_rw_chain req resp idx1).1.flags VIRTQ_DESC_F_WRITE = 0 ∧
     (transact_rw_chain req resp idx1).2.addr = resp.addr ∧
     (transact_rw_chain req resp idx1).2.len = resp.len ∧
     (transact_rw_chain req resp idx1).2.next = 0 ∧
     Nat.land (transact_rw_chain req resp idx1).2.flags VIRTQ_DESC_F_WRITE =
       VIRTQ_DESC_F_WRITE) ∧
    ((transact_rrw_chain req more resp idx1 idx2).1.addr = req.addr ∧
     (transact_rrw_chain req more resp idx1 idx2).1.len = req.len ∧
     (transact_rrw_chain req more resp idx1 idx2).1.next = idx1 ∧
     Nat.land (transact_rrw_chain req more resp idx1 idx2).1.flags
       VIRTQ_DESC_F_WRITE = 0 ∧
     (transact_rrw_chain req more resp idx1 idx2).2.1.addr = more.addr ∧
     (transact_rrw_chain req more resp idx1 idx2).2.1.len = more.len ∧
     (transact_rrw_chain req more resp idx1 idx2).2.1.next = idx2 ∧
     Nat.land (transact_rrw_chain req more resp idx1 idx2).2.1.flags
       VIRTQ_DESC_F_WRITE = 0 ∧
     (transact_rrw_chain req more resp idx1 idx2).2.2.addr = resp.addr ∧
     (transact_rrw_chain req more resp idx1 idx2).2.2.len = resp.len ∧
     (transact_rrw_chain req more resp idx1 idx2).2.2.next = 0 ∧
     Nat.land (transact_rrw_chain req more resp idx1 idx2).2.2.flags
       VIRTQ_DESC_F_WRITE = VIRTQ_DESC_F_WRITE) := by
  simp only [transact_rw_chain, transact_rrw_chain, transact_rw_fill,
    transact_rrw_fill, allocSlot]
  decide

/-- Claim C10: for a bitmap with positive width and height, the source lookup
of graphics_fill_box_with_bitmap (bitmap coordinates reduced modulo the
bitmap dimensions) never returns NULL. -/
theorem c10_bitmap_lookup_total (bm : Bitmap) (hw : 0 < bm.width)
    (hh : 0 < bm.height) (i j : Nat) :
    (bitmapSrc bm i j).isSome = true := by
  unfold bitmapSrc get_bitmap_pixel_pointer
  have h1 : i % bm.width < bm.width := Nat.mod_lt _ hw
  have h2 : j % bm.height < bm.height := Nat.mod_lt _ hh
  simp [Nat.not_le_of_lt, h1, h2]

/-- Witness for C10 with a 2x2 bitmap at destination offset (5,7). -/
theorem c10_bitmap_lookup_total_witness :
    (bitmapSrc ⟨2, 2, fun _ => 0⟩ 5 7).isSome = true :=
  c10_bitmap_lookup_total ⟨2, 2, fun _ => 0⟩ (by decide) (by decide) 5 7

/-- Claim C4: flush in a graphics mode with an OK-responding device issues
exactly the two transactions TRANSFER_TO_HOST_2D (offset 0) then
RESOURCE_FLUSH, both on queue 0, both with SCREEN_RID and the full
scanout rectangle, both completed before flush returns 0; flush in text
mode issues no transaction and returns 0.  Trace entries are completed
transactions, so the synchronous completion is part of the model. -/
theorem c4_flush_sequencing (d : GpuState) (e : Env) (rest : List (Option Nat))
    (hmode : 0 < d.cur_mode)
    (hresp : e.resps = some VIRTIO_GPU_RESP_OK_NODATA ::
      some VIRTIO_GPU_RESP_OK_NODATA :: rest) :
    (flushOp d e).1 = 0 ∧
    (flushOp d e).2.1 =
      [(0, Cmd.transferToHost2d (d.pmode (d.cur_mode - 1)).r 0 SCREEN_RID),
       (0, Cmd.resourceFlush (d.pmode (d.cur_mode - 1)).r SCREEN_RID)] ∧
    (flushOp { d with cur_mode := 0 } e).1 = 0 ∧
    (flushOp { d with cur_mode := 0 } e).2.1 = [] := by
  have hne : ¬ d.cur_mode = 0 := Nat.pos_iff_ne_zero.mp hmode
  refine ⟨?_, ?_, ?_, ?_⟩ <;>
    simp [flushOp, takeResp, hresp, hne]

/-- Witness for C4: a 1024x768 graphics mode with an OK-responding
device. -/
theorem c4_flush_sequencing_witness :
    (flushOp demoGfx envOkOk).1 = 0 ∧
    (flushOp demoGfx envOkOk).2.1 =
      [(0, Cmd.transferToHost2d (demoGfx.pmode (demoGfx.cur_mode - 1)).r 0
         SCREEN_RID),
       (0, Cmd.resourceFlush (demoGfx.pmode (demoGfx.cur_mode - 1)).r
         SCREEN_RID)] ∧
    (flushOp { demoGfx with cur_mode := 0 } envOkOk).1 = 0 ∧
    (flushOp { demoGfx with cur_mode := 0 } envOkOk).2.1 = [] :=
  c4_flush_sequencing demoGfx envOkOk [] (by decide) rfl

/-- Claim C1: evaluating set_mode to graphics mode 1 when the device answers OK
to RESOURCE_CREATE_2D and an error to RESOURCE_ATTACH_BACKING: set_mode
returns -1 and cur_mode stays 0 (as the claim says), but the framebuffer
pointer is left non-NULL (the allocation leaks) and the issued trace
contains no RESOURCE_UNREF or DETACH_BACKING, so the created screen
resource is not rolled back. -/
theorem c1_attach_failure_no_rollback :
    (setModeOp demoText 1 envOkErr).1 = -1 ∧
    (setModeOp demoText 1 envOkErr).2.1.cur_mode = 0 ∧
    (setModeOp demoText 1 envOkErr).2.1.frame_buffer.isSome = true ∧
    (setModeOp demoText 1 envOkErr).2.2.1 =
      [(0, Cmd.create2d SCREEN_RID FORMAT_R8G8B8A8 1024 768),
       (0, Cmd.attachBacking SCREEN_RID 1 3145728)] := by
  decide

/-- The mode-filling loop emits the enabled entries in order, truncated
to limit - cur further modes. -/
lemma modeLoop_eq_take (d : GpuState) (limit : Nat) :
    ∀ (l : List (Nat × ScanoutInfo)) (cur : Nat), cur ≤ limit →
      modeLoop d limit l cur =
        ((l.filter (fun is => is.2.enabled != 0)).take (limit - cur)).map
          (fun is => fill_out_mode d (is.1 + 1)) := by
  intro l
  induction l with
  | nil => intro cur h; simp [modeLoop]
  | cons a rest ih =>
    intro cur h
    obtain ⟨i, s⟩ := a
    by_cases hcl : cur < limit
    · by_cases hen : s.enabled = 0
      · have hb : (s.enabled != 0) = false := by simp [hen]
        simp [modeLoop, hcl, hen, hb, ih cur h]
      · have hb : (s.enabled != 0) = true := by simp [hen]
        have htake : limit - cur = (limit - (cur + 1)) + 1 := by omega
        simp [modeLoop, hcl, hen, hb, htake, List.take_succ_cons,
          ih (cur + 1) hcl]
    · have hcur : cur = limit := le_antisymm h (not_lt.mp hcl)
      simp [modeLoop, hcl, hcur]

/-- Counterexample for C2: with one enabled scanout and exactly n = 2 entry
slots, get_available_modes succeeds but produces only the text mode
(1 mode), not 1 + min(n-1, 15) = 2 as the claim requires. -/
theorem c2_counterexample :
    (get_available_modes demoText 2 emptyEnv).1 = 0 ∧
    (get_available_modes demoText 2 emptyEnv).2.2.1 =
      [fill_out_mode demoText 0] ∧
    (get_available_modes demoText 2 emptyEnv).2.2.2.1 = 1 ∧
    (enabledScanouts demoText).length = 1 ∧
    (get_available_modes demoText 2 emptyEnv).2.2.2.1 ≠
      1 + min (enabledScanouts demoText).length (min (2 - 1) 15) := by
  decide

/-- Claim C2 (amended): with the display-info cache populated, a call with
n < 2 slots fails; a call with n ≥ 2 succeeds, slot 0 is the text mode,
the following slots hold one graphics mode per enabled scanout in index
order up to (if n > 16 then 15 else n-1) - 1 = min(n-2, 14) of them, and
the total produced is returned. -/
theorem c2_get_available_modes (d : GpuState) (num : Nat) (e : Env)
    (hinfo : d.have_disp_info = true) (hnum : 2 ≤ num) :
    (get_available_modes d 0 e).1 = -1 ∧
    (get_available_modes d 1 e).1 = -1 ∧
    (get_available_modes d num e).1 = 0 ∧
    (get_available_modes d num e).2.2.1 =
      fill_out_mode d 0 ::
        ((enabledScanouts d).take ((if num > 16 then 15 else num - 1) - 1)).map
          (fun is => fill_out_mode d (is.1 + 1)) ∧
    (get_available_modes d num e).2.2.2.1 =
      1 + min ((if num > 16 then 15 else num - 1) - 1)
        (enabledScanouts d).length := by
  have hlt : ¬ num < 2 := not_lt.mpr hnum
  have hlim : (1 : Nat) ≤ if num > 16 then 15 else num - 1 := by
    split <;> omega
  refine ⟨?_, ?_, ?_, ?_, ?_⟩
  · simp [get_available_modes]
  · simp [get_available_modes]
  · simp [get_available_modes, update_modes, hlt, hinfo]
  · simp [get_available_modes, update_modes, hlt, hinfo,
      modeLoop_eq_take d _ (indexedScanouts d) 1 hlim, enabledScanouts]
  · simp [get_available_modes, update_modes, hlt, hinfo,
      modeLoop_eq_take d _ (indexedScanouts d) 1 hlim, enabledScanouts,
      List.length_take, Nat.add_comm]

/-- Witness for C2 (amended) at the cached one-scanout state with
num = 16. -/
theorem c2_get_available_modes_witness :
    (get_available_modes demoText 0 emptyEnv).1 = -1 ∧
    (get_available_modes demoText 1 emptyEnv).1 = -1 ∧
    (get_available_modes demoText 16 emptyEnv).1 = 0 ∧
    (get_available_modes demoText 16 emptyEnv).2.2.1 =
      fill_out_mode demoText 0 ::
        ((enabledScanouts demoText).take
          ((if 16 > 16 then 15 else 16 - 1) - 1)).map
          (fun is => fill_out_mode demoText (is.1 + 1)) ∧
    (get_available_modes demoText 16 emptyEnv).2.2.2.1 =
      1 + min ((if 16 > 16 then 15 else 16 - 1) - 1)
        (enabledScanouts demoText).length :=
  c2_get_available_modes demoText 16 emptyEnv rfl (by decide)

lemma clipWithinFrame_of_boxes_eq (x : GpuState)
    (hx : x.clipping_box = x.frame_box) : clipWithinFrame x :=
  fun _ _ hin => hx ▸ hin

lemma clipWithinFrame_congr {d d2 : GpuState}
    (hc : d2.clipping_box = d.clipping_box) (hf : d2.frame_box = d.frame_box)
    (h : clipWithinFrame d) : clipWithinFrame d2 := by
  intro cx cy hin
  rw [hf]
  exact h cx cy (hc ▸ hin)

lemma fill_pixel_boxes (d : GpuState) (b : Box) (p : Nat) (op : BlitOp) :
    SameBoxes d (graphics_fill_box_with_pixel d b p op) := by
  unfold graphics_fill_box_with_pixel
  exact foldl_pres (SameBoxes d) _
    (fun d2 a hP => ⟨(clip_apply_clipping_box d2 _ _ _ _).trans hP.1,
      (clip_apply_frame_box d2 _ _ _ _).trans hP.2⟩)
    (boxOffsets b) d ⟨rfl, rfl⟩

lemma fill_bitmap_boxes (d : GpuState) (b : Box) (bm : Bitmap) (op : BlitOp) :
    SameBoxes d (graphics_fill_box_with_bitmap d b bm op) := by
  unfold graphics_fill_box_with_bitmap
  exact foldl_pres (SameBoxes d) _
    (fun d2 a hP => ⟨(clip_apply_clipping_box d2 _ _ _ _).trans hP.1,
      (clip_apply_frame_box d2 _ _ _ _).trans hP.2⟩)
    (boxOffsets b) d ⟨rfl, rfl⟩

lemma copy_box_boxes (d : GpuState) (sb db : Box) (op : BlitOp) :
    SameBoxes d (graphics_copy_box d sb db op) := by
  unfold graphics_copy_box
  exact foldl_pres (SameBoxes d) _
    (fun d2 a hP => ⟨(clip_apply_clipping_box d2 _ _ _ _).trans hP.1,
      (clip_apply_frame_box d2 _ _ _ _).trans hP.2⟩)
    (boxOffsets db) d ⟨rfl, rfl⟩

lemma draw_pixel_boxes (d : GpuState) (cx cy p : Nat) :
    SameBoxes d (graphics_draw_pixel d cx cy p) :=
  ⟨clip_apply_clipping_box d cx cy p .copy, clip_apply_frame_box d cx cy p .copy⟩

lemma draw_line_boxes (d : GpuState) (ax ay bx byy p : Nat) :
    SameBoxes d (graphics_draw_line d ax ay bx byy p) := by
  unfold graphics_draw_line
  exact foldl_pres (SameBoxes d) _
    (fun d2 a hP => ⟨((draw_pixel_boxes d2 _ _ _).1).trans hP.1,
      ((draw_pixel_boxes d2 _ _ _).2).trans hP.2⟩)
    _ d ⟨rfl, rfl⟩

lemma draw_poly_boxes (d : GpuState) (coords : List (Nat × Nat)) (count p : Nat) :
    SameBoxes d (graphics_draw_poly d coords count p) := by
  unfold graphics_draw_poly
  exact foldl_pres (SameBoxes d) _
    (fun d2 a hP => ⟨((draw_line_boxes d2 _ _ _ _ _).1).trans hP.1,
      ((draw_line_boxes d2 _ _ _ _ _).2).trans hP.2⟩)
    _ d ⟨rfl, rfl⟩

lemma reset_boxes (d : GpuState) (e : Env) :
    SameBoxes d (resetOp d e).2.1 := by
  unfold resetOp
  repeat' split
  all_goals exact ⟨rfl, rfl⟩

lemma updateModes_boxes (d : GpuState) (e : Env) :
    SameBoxes d (update_modes d e).2.1 := by
  unfold update_modes
  repeat' split
  all_goals exact ⟨rfl, rfl⟩

lemma getModes_boxes (d : GpuState) (n : Nat) (e : Env) :
    SameBoxes d (get_available_modes d n e).2.1 := by
  unfold get_available_modes
  rcases hum : update_modes d e with ⟨rcU, d1, trU, e1⟩
  have hb := updateModes_boxes d e
  rw [hum] at hb
  dsimp only
  repeat' split
  all_goals first
    | exact ⟨rfl, rfl⟩
    | exact hb

lemma reset_clipWithinFrame (d : GpuState) (e : Env) (h : clipWithinFrame d) :
    clipWithinFrame (resetOp d e).2.1 :=
  clipWithinFrame_congr (reset_boxes d e).1 (reset_boxes d e).2 h

lemma setMode_clipWithinFrame (d : GpuState) (m : Nat) (e : Env)
    (h : clipWithinFrame d) : clipWithinFrame (setModeOp d m e).2.1 := by
  unfold setModeOp
  rcases hre : resetOp d e with ⟨rcR, d1, trR, e1⟩
  have hb := reset_boxes d e
  rw [hre] at hb
  have h1 : clipWithinFrame d1 := clipWithinFrame_congr hb.1 hb.2 h
  dsimp only
  repeat' split
  all_goals first
    | exact h1
    | exact clipWithinFrame_congr rfl rfl h1
    | exact clipWithinFrame_of_boxes_eq _ rfl
    | (dsimp only
       exact reset_clipWithinFrame _ _ (clipWithinFrame_of_boxes_eq _ rfl))

/-- Counterexample for C3: c3Bad is reachable through the public operations,
yet its clipping box contains the coordinate (0,0) which is outside its
frame box — graphics_set_clipping_box stores the caller's box without
validating it against the frame box. -/
theorem c3_counterexample :
    Reachable c3Bad ∧ in_box c3Bad.clipping_box 0 0 ∧
    ¬ in_box c3Bad.frame_box 0 0 :=
  ⟨Reachable.clip_box (some ⟨0, 0, 1, 1⟩) Reachable.init, by decide, by decide⟩

/-- Claim C3 (amended): the clipping box is contained in the frame box in every
state reachable through the public operations in which each non-NULL box
handed to graphics_set_clipping_box is contained in the frame box current
at the time of that call. -/
theorem c3_clipping_invariant (s : GpuState) (hs : GoodReachable s) :
    clipWithinFrame s := by
  induction hs with
  | init => exact clipWithinFrame_of_boxes_eq _ rfl
  | set_mode m e _ ih => exact setMode_clipWithinFrame _ m e ih
  | get_modes n e _ ih =>
    exact clipWithinFrame_congr (getModes_boxes _ n e).1 (getModes_boxes _ n e).2 ih
  | clip_none _ ih => exact clipWithinFrame_of_boxes_eq _ rfl
  | clip_some bb _ hcont _ =>
    intro cx cy hin
    exact hcont cx cy hin
  | draw_pixel cx cy p _ ih =>
    exact clipWithinFrame_congr (draw_pixel_boxes _ cx cy p).1
      (draw_pixel_boxes _ cx cy p).2 ih
  | draw_line ax ay bx byy p _ ih =>
    exact clipWithinFrame_congr (draw_line_boxes _ ax ay bx byy p).1
      (draw_line_boxes _ ax ay bx byy p).2 ih
  | draw_poly coords count p _ ih =>
    exact clipWithinFrame_congr (draw_poly_boxes _ coords count p).1
      (draw_poly_boxes _ coords count p).2 ih
  | fill_pixel b p op _ ih =>
    exact clipWithinFrame_congr (fill_pixel_boxes _ b p op).1
      (fill_pixel_boxes _ b p op).2 ih
  | fill_bitmap b bm op _ ih =>
    exact clipWithinFrame_congr (fill_bitmap_boxes _ b bm op).1
      (fill_bitmap_boxes _ b bm op).2 ih
  | copy_box sb db op _ ih =>
    exact clipWithinFrame_congr (copy_box_boxes _ sb db op).1
      (copy_box_boxes _ sb db op).2 ih

/-- Witness for C3 (amended): resetting the clipping box to NULL from the
initial state is a guarded-reachable state and the invariant holds there. -/
theorem c3_clipping_invariant_witness :
    GoodReachable (graphics_set_clipping_box initState none) ∧
    clipWithinFrame (graphics_set_clipping_box initState none) :=
  ⟨GoodReachable.clip_none GoodReachable.init,
   c3_clipping_invariant (graphics_set_clipping_box initState none)
     (GoodReachable.clip_none GoodReachable.init)⟩

lemma in_frame_bounds {d : GpuState} {W H : Nat}
    (hframe : d.frame_box = ⟨0, 0, W, H⟩) (hW : W < U32) (hH : H < U32)
    {cx cy : Nat} (h : in_box d.frame_box cx cy) : cx < W ∧ cy < H := by
  rw [hframe] at h
  obtain ⟨_, h1, _, h2⟩ := h
  constructor
  · simpa [Nat.mod_eq_of_lt hW] using h1
  · simpa [Nat.mod_eq_of_lt hH] using h2

lemma pixel_index_in_frame {d : GpuState} {W H cx cy : Nat}
    (hframe : d.frame_box = ⟨0, 0, W, H⟩) (hWH : W * H ≤ U32)
    (hx : cx < W) (hy : cy < H) : pixel_index d cx cy = cy * W + cx := by
  unfold pixel_index
  rw [hframe]
  have h1 : cy * W + cx < (cy + 1) * W := by
    rw [add_mul, one_mul]
    exact Nat.add_lt_add_left hx _
  have h2 : (cy + 1) * W ≤ H * W := Nat.mul_le_mul_right W (by omega)
  have h3 : cy * W + cx < U32 := by
    calc cy * W + cx < (cy + 1) * W := h1
    _ ≤ H * W := h2
    _ = W * H := Nat.mul_comm H W
    _ ≤ U32 := hWH
  exact Nat.mod_eq_of_lt h3

/-- In a sane frame, the pixel index of any coordinate inside the
clipping box differs from the index of an in-frame coordinate outside
the clipping box. -/
lemma clip_miss {d : GpuState} {W H tx ty : Nat}
    (hframe : d.frame_box = ⟨0, 0, W, H⟩)
    (hW : W < U32) (hH : H < U32) (hWH : W * H ≤ U32)
    (hclip : clipWithinFrame d)
    (hin : in_box d.frame_box tx ty)
    (hout : ¬ in_box d.clipping_box tx ty) :
    ∀ cx cy, in_box d.clipping_box cx cy →
      pixel_index d cx cy ≠ pixel_index d tx ty := by
  intro cx cy hc
  have hbc := in_frame_bounds hframe hW hH (hclip cx cy hc)
  have hbt := in_frame_bounds hframe hW hH hin
  rw [pixel_index_in_frame hframe hWH hbc.1 hbc.2,
    pixel_index_in_frame hframe hWH hbt.1 hbt.2]
  intro heq
  obtain ⟨hx, hy⟩ := index_unique hbc.1 hbt.1 heq
  rw [hx, hy] at hc
  exact hout hc

/-- One clip_apply_with_blit step preserves the pixel at an index no
clipped-in coordinate maps to, along with the boxes. -/
lemma clip_apply_pres_miss (d : GpuState) (k0 vf : Nat)
    (havoid : ∀ cx cy, in_box d.clipping_box cx cy →
      pixel_index d cx cy ≠ k0) :
    ∀ (d2 : GpuState) (cx cy s : Nat) (op : BlitOp),
      (d2.clipping_box = d.clipping_box ∧ d2.frame_box = d.frame_box ∧
        pixAt d2 k0 = some vf) →
      ((clip_apply_with_blit d2 cx cy s op).clipping_box = d.clipping_box ∧
       (clip_apply_with_blit d2 cx cy s op).frame_box = d.frame_box ∧
       pixAt (clip_apply_with_blit d2 cx cy s op) k0 = some vf) := by
  rintro d2 cx cy s op ⟨hc, hf, hp⟩
  unfold clip_apply_with_blit
  split
  · rename_i hin2
    refine ⟨hc, hf, ?_⟩
    rcases hfb : d2.frame_buffer with _ | f2
    · rw [pixAt, hfb] at hp
      simp at hp
    · rw [pixAt, hfb] at hp
      simp at hp
      have hidx : pixel_index d2 cx cy ≠ k0 := by
        have hcc : in_box d.clipping_box cx cy := hc ▸ hin2
        have h2 := havoid cx cy hcc
        unfold pixel_index at h2 ⊢
        rw [hf]
        exact h2
      rw [pixAt]
      simp [hfb]
      rw [if_neg (fun hh => hidx hh.symm)]
      exact hp
  · exact ⟨hc, hf, hp⟩

lemma draw_pixel_pres_miss (d : GpuState) (k0 vf : Nat)
    (havoid : ∀ cx cy, in_box d.clipping_box cx cy →
      pixel_index d cx cy ≠ k0) (d2 : GpuState) (cx cy p : Nat)
    (h : MissInv d k0 vf d2) : MissInv d k0 vf (graphics_draw_pixel d2 cx cy p) :=
  clip_apply_pres_miss d k0 vf havoid d2 cx cy p .copy h

lemma draw_line_pres_miss (d : GpuState) (k0 vf : Nat)
    (havoid : ∀ cx cy, in_box d.clipping_box cx cy →
      pixel_index d cx cy ≠ k0) (d2 : GpuState) (ax ay bx byy p : Nat)
    (h : MissInv d k0 vf d2) :
    MissInv d k0 vf (graphics_draw_line d2 ax ay bx byy p) := by
  unfold graphics_draw_line
  exact foldl_pres (MissInv d k0 vf) _
    (fun d3 c hP => draw_pixel_pres_miss d k0 vf havoid d3 _ _ _ hP) _ d2 h

lemma draw_poly_pres_miss (d : GpuState) (k0 vf : Nat)
    (havoid : ∀ cx cy, in_box d.clipping_box cx cy →
      pixel_index d cx cy ≠ k0) (d2 : GpuState) (coords : List (Nat × Nat))
    (count p : Nat) (h : MissInv d k0 vf d2) :
    MissInv d k0 vf (graphics_draw_poly d2 coords count p) := by
  unfold graphics_draw_poly
  exact foldl_pres (MissInv d k0 vf) _
    (fun d3 i hP => draw_line_pres_miss d k0 vf havoid d3 _ _ _ _ _ hP) _ d2 h

/-- Claim C6: for every drawing primitive, every blit op and every in-frame
target coordinate (tx,ty) outside the clipping box, the framebuffer pixel
at (tx,ty) is unchanged — given a live framebuffer, a frame box of sane
uint32 dimensions anchored at the origin (as set_mode installs it) and a
clipping box contained in the frame box. -/
theorem c6_out_of_clip_pixel_unchanged (d : GpuState) (f : Nat → Nat)
    (W H tx ty cx cy p ax ay bx byy p2 : Nat) (coords : List (Nat × Nat))
    (count p3 : Nat) (b : Box) (p4 : Nat) (op : BlitOp) (b2 : Box)
    (bm : Bitmap) (op2 : BlitOp) (sb db : Box) (op3 : BlitOp)
    (hfb : d.frame_buffer = some f)
    (hframe : d.frame_box = ⟨0, 0, W, H⟩)
    (hW : W < U32) (hH : H < U32) (hWH : W * H ≤ U32)
    (hclip : clipWithinFrame d)
    (hin : in_box d.frame_box tx ty)
    (hout : ¬ in_box d.clipping_box tx ty) :
    pixAt (graphics_draw_pixel d cx cy p) (pixel_index d tx ty) =
      some (f (pixel_index d tx ty)) ∧
    pixAt (graphics_draw_line d ax ay bx byy p2) (pixel_index d tx ty) =
      some (f (pixel_index d tx ty)) ∧
    pixAt (graphics_draw_poly d coords count p3) (pixel_index d tx ty) =
      some (f (pixel_index d tx ty)) ∧
    pixAt (graphics_fill_box_with_pixel d b p4 op) (pixel_index d tx ty) =
      some (f (pixel_index d tx ty)) ∧
    pixAt (graphics_fill_box_with_bitmap d b2 bm op2) (pixel_index d tx ty) =
      some (f (pixel_index d tx ty)) ∧
    pixAt (graphics_copy_box d sb db op3) (pixel_index d tx ty) =
      some (f (pixel_index d tx ty)) := by
  have havoid := clip_miss hframe hW hH hWH hclip hin hout
  have h0 : MissInv d (pixel_index d tx ty) (f (pixel_index d tx ty)) d :=
    ⟨rfl, rfl, by rw [pixAt, hfb]; rfl⟩
  refine ⟨?_, ?_, ?_, ?_, ?_, ?_⟩
  · exact (draw_pixel_pres_miss d _ _ havoid d cx cy p h0).2.2
  · exact (draw_line_pres_miss d _ _ havoid d ax ay bx byy p2 h0).2.2
  · exact (draw_poly_pres_miss d _ _ havoid d coords count p3 h0).2.2
  · exact (foldl_pres (MissInv d (pixel_index d tx ty) (f (pixel_index d tx ty)))
      _ (fun d3 ij hP => clip_apply_pres_miss d _ _ havoid d3 _ _ _ _ hP)
      (boxOffsets b) d h0).2.2
  · exact (foldl_pres (MissInv d (pixel_index d tx ty) (f (pixel_index d tx ty)))
      _ (fun d3 ij hP => clip_apply_pres_miss d _ _ havoid d3 _ _ _ _ hP)
      (boxOffsets b2) d h0).2.2
  · exact (foldl_pres (MissInv d (pixel_index d tx ty) (f (pixel_index d tx ty)))
      _ (fun d3 ij hP => clip_apply_pres_miss d _ _ havoid d3 _ _ _ _ hP)
      (boxOffsets db) d h0).2.2

/-- Witness for C6 at the 4x4 state, target pixel (3,3). -/
theorem c6_out_of_clip_pixel_unchanged_witness :
    pixAt (graphics_draw_pixel c6State 1 1 5) (pixel_index c6State 3 3) =
      some 0 ∧
    pixAt (graphics_draw_line c6State 0 0 1 1 7) (pixel_index c6State 3 3) =
      some 0 ∧
    pixAt (graphics_draw_poly c6State [(0, 0), (1, 0)] 2 9)
      (pixel_index c6State 3 3) = some 0 ∧
    pixAt (graphics_fill_box_with_pixel c6State ⟨0, 0, 2, 2⟩ 3 .plus)
      (pixel_index c6State 3 3) = some 0 ∧
    pixAt (graphics_fill_box_with_bitmap c6State ⟨0, 0, 2, 2⟩
      ⟨2, 2, fun _ => 1⟩ .copy) (pixel_index c6State 3 3) = some 0 ∧
    pixAt (graphics_copy_box c6State ⟨0, 0, 2, 2⟩ ⟨1, 1, 2, 2⟩ .bitXor)
      (pixel_index c6State 3 3) = some 0 :=
  c6_out_of_clip_pixel_unchanged c6State (fun _ => 0) 4 4 3 3 1 1 5 0 0 1 1 7
    [(0, 0), (1, 0)] 2 9 ⟨0, 0, 2, 2⟩ 3 .plus ⟨0, 0, 2, 2⟩ ⟨2, 2, fun _ => 1⟩
    .copy ⟨0, 0, 2, 2⟩ ⟨1, 1, 2, 2⟩ .bitXor rfl rfl (by decide) (by decide)
    (by decide)
    (by intro a b h; simp [c6State, initState, in_box, U32] at h ⊢; omega)
    (by decide) (by decide)

lemma pixel_index_set_fb (d : GpuState) (X : Option (Nat → Nat)) (cx cy : Nat) :
    pixel_index { d with frame_buffer := X } cx cy = pixel_index d cx cy := rfl

/-- The COPY fill writes the constant pixel at exactly the clipped-in
cells of the box and leaves everything else (including all other state
fields) unchanged. -/
lemma fill_copy_spec (b : Box) (p : Nat) :
    ∀ (l : List (Nat × Nat)) (d : GpuState),
      l.foldl (fun d2 ij => clip_apply_with_blit d2 ((b.x + ij.1) % U32)
        ((b.y + ij.2) % U32) p .copy) d =
      { d with frame_buffer := d.frame_buffer.map (fun f => fun k =>
          if fillHit d b l k then p else f k) } := by
  intro l
  induction l with
  | nil =>
    intro d
    have hg : (fun (f : Nat → Nat) => fun k =>
        if fillHit d b [] k then p else f k) = fun f => f := by
      funext f k
      simp [fillHit]
    rw [List.foldl_nil, hg]
    simp [Option.map_id']
  | cons ij rest ih =>
    intro d
    rw [List.foldl_cons, ih]
    unfold clip_apply_with_blit
    by_cases hc : in_box d.clipping_box ((b.x + ij.1) % U32) ((b.y + ij.2) % U32)
    · rw [if_pos hc]
      congr 1
      rw [Option.map_map]
      apply congrArg (fun g => Option.map g d.frame_buffer)
      funext f k
      simp only [Function.comp, fillHit, List.any_cons, pixel_index_set_fb]
      by_cases hr : (rest.any (fun ij =>
          decide (in_box d.clipping_box ((b.x + ij.1) % U32)
            ((b.y + ij.2) % U32)) &&
          (pixel_index d ((b.x + ij.1) % U32) ((b.y + ij.2) % U32) == k)))
      · simp only [hr, Bool.or_true, if_true]
      · simp only [hr, Bool.or_false, decide_eq_true hc, Bool.true_and,
          beq_iff_eq]
        by_cases hk : k = pixel_index d ((b.x + ij.1) % U32) ((b.y + ij.2) % U32)
        · rw [if_pos hk, if_pos hk.symm]
          rfl
        · rw [if_neg hk]
          exact (if_neg (fun hh => hk (Eq.symm hh))).symm
    · rw [if_neg hc]
      congr 1
      apply congrArg (fun g => Option.map g d.frame_buffer)
      funext f k
      simp only [fillHit, List.any_cons, decide_eq_false hc, Bool.false_and,
        Bool.false_or]

lemma fillHit_set_fb (d : GpuState) (X : Option (Nat → Nat)) (b : Box)
    (l : List (Nat × Nat)) (k : Nat) :
    fillHit { d with frame_buffer := X } b l k = fillHit d b l k := rfl

/-- Claim C9: filling a box with a pixel under the COPY op twice leaves the
device (and in particular the framebuffer) in the same state as filling
once, whatever the clipping box. -/
theorem c9_fill_copy_idempotent (d : GpuState) (b : Box) (p : Nat) :
    graphics_fill_box_with_pixel (graphics_fill_box_with_pixel d b p .copy)
      b p .copy = graphics_fill_box_with_pixel d b p .copy := by
  unfold graphics_fill_box_with_pixel
  rw [fill_copy_spec b p (boxOffsets b) d, fill_copy_spec b p (boxOffsets b)]
  simp only [fillHit_set_fb]
  congr 1
  rw [Option.map_map]
  apply congrArg (fun g => Option.map g d.frame_buffer)
  funext f k
  by_cases h : fillHit d b (boxOffsets b) k <;> simp [h, Function.comp]

set_option maxHeartbeats 1000000 in
lemma bres_xmajor (dx dy sx sy x1 y1 : Int)
    (hdx : 0 ≤ dx) (hdy : dy ≤ 0) (hmaj : -dy ≤ dx)
    (hsx : sx = 1 ∨ sx = -1) (hsy : sy = 1 ∨ sy = -1) :
    ∀ (n : Nat) (p q x0 y0 err : Int),
      0 ≤ p → p ≤ dx → 0 ≤ q → q ≤ -dy →
      x1 = x0 + sx * p → y1 = y0 + sy * q →
      err = dx + dy - p * dy - q * dx →
      dy ≤ 2 * err →
      p.toNat < n →
      (bresList x1 y1 dx dy sx sy n x0 y0 err).length = p.toNat + 1 ∧
      (bresList x1 y1 dx dy sx sy n x0 y0 err).head? = some (x0, y0) ∧
      (bresList x1 y1 dx dy sx sy n x0 y0 err).getLast? = some (x1, y1) ∧
      List.Chain' adj8 (bresList x1 y1 dx dy sx sy n x0 y0 err) := by
  intro n
  induction n with
  | zero => intro p q x0 y0 err hp0 hpdx hq0 hqdy hx hy herr hK hfuel; omega
  | succ n ih =>
    intro p q x0 y0 err hp0 hpdx hq0 hqdy hx hy herr hK hfuel
    by_cases hp : p = 0
    · -- terminal: q must be 0 too, and the loop breaks after one plot
      have hq : q = 0 := by
        by_contra hqne
        have hq1 : 1 ≤ q := by omega
        have hqdx : dx ≤ q * dx := le_mul_of_one_le_left hdx hq1
        have hpdynn : 0 ≤ p * dy := by
          subst hp
          simp
        have herrle : err ≤ dy := by
          subst hp
          simp at herr
          linarith
        have hdyneg : dy ≤ -1 := by omega
        linarith
      have hxx : x1 = x0 := by
        subst hp
        simpa using hx
      have hyy : y1 = y0 := by
        subst hq
        simpa using hy
      rw [bresList]
      rw [if_pos ⟨hxx.symm, hyy.symm⟩]
      subst hp
      refine ⟨by simp, by simp, by simp [hxx, hyy], by simp⟩
    · -- p ≥ 1: x always advances
      have hp1 : 1 ≤ p := by omega
      have hxne : x0 ≠ x1 := by
        rcases hsx with h | h <;> subst h <;> intro hcon <;> rw [hcon] at hx <;> omega
      have hnotdone : ¬ (x0 = x1 ∧ y0 = y1) := fun hcon => hxne hcon.1
      have hdx1 : 1 ≤ dx := le_trans hp1 hpdx
      rw [bresList]
      rw [if_neg hnotdone]
      simp only []
      rw [if_pos hK]
      rw [if_neg hxne]
      by_cases hbr : 2 * err ≤ dx
      · -- diagonal step
        have hqne : q ≠ 0 := by
          intro hq
          subst hq
          have hple : (1 : Int) - p ≤ 0 := by omega
          have h1 : 0 ≤ (1 - p) * dy := by nlinarith
          have : dx ≤ err := by nlinarith
          linarith
        have hq1 : 1 ≤ q := by omega
        have hyne : y0 ≠ y1 := by
          rcases hsy with h | h <;> subst h <;> intro hcon <;> rw [hcon] at hy <;> omega
        rw [if_pos hbr, if_neg hyne]
        have hrec := ih (p - 1) (q - 1) (x0 + sx) (y0 + sy) (err + dy + dx)
          (by omega) (by omega) (by omega) (by omega)
          (by rw [hx]; ring) (by rw [hy]; ring)
          (by rw [herr]; ring)
          (by linarith)
          (by omega)
        obtain ⟨hlen, hhead, hlast, hchain⟩ := hrec
        obtain ⟨r, rest2, hrl⟩ : ∃ r rest2,
            bresList x1 y1 dx dy sx sy n (x0 + sx) (y0 + sy) (err + dy + dx) =
              r :: rest2 := by
          cases hl : bresList x1 y1 dx dy sx sy n (x0 + sx) (y0 + sy) (err + dy + dx) with
          | nil => rw [hl] at hhead; simp at hhead
          | cons r rest2 => exact ⟨r, rest2, rfl⟩
        have hr : r = (x0 + sx, y0 + sy) := by
          rw [hrl] at hhead
          simpa using hhead
        refine ⟨?_, ?_, ?_, ?_⟩
        · rw [List.length_cons, hlen]; omega
        · rfl
        · rw [hrl, List.getLast?_cons_cons, ← hrl, hlast]
        · rw [hrl, List.chain'_cons]
          constructor
          · rw [hr]
            refine ⟨?_, ?_, ?_⟩
            · intro hcon
              rcases hsx with h | h <;> subst h <;> simp at hcon
            · simp
              rcases hsx with h | h <;> subst h <;> simp
            · simp
              rcases hsy with h | h <;> subst h <;> simp
          · rw [← hrl]; exact hchain
      · -- x-only step
        rw [if_neg hbr]
        have hrec := ih (p - 1) q (x0 + sx) y0 (err + dy)
          (by omega) (by omega) (by omega) (by omega)
          (by rw [hx]; ring) (by rw [hy])
          (by rw [herr]; ring)
          (by linarith)
          (by omega)
        obtain ⟨hlen, hhead, hlast, hchain⟩ := hrec
        obtain ⟨r, rest2, hrl⟩ : ∃ r rest2,
            bresList x1 y1 dx dy sx sy n (x0 + sx) y0 (err + dy) =
              r :: rest2 := by
          cases hl : bresList x1 y1 dx dy sx sy n (x0 + sx) y0 (err + dy) with
          | nil => rw [hl] at hhead; simp at hhead
          | cons r rest2 => exact ⟨r, rest2, rfl⟩
        have hr : r = (x0 + sx, y0) := by
          rw [hrl] at hhead
          simpa using hhead
        refine ⟨?_, ?_, ?_, ?_⟩
        · rw [List.length_cons, hlen]; omega
        · rfl
        · rw [hrl, List.getLast?_cons_cons, ← hrl, hlast]
        · rw [hrl, List.chain'_cons]
          constructor
          · rw [hr]
            refine ⟨?_, ?_, ?_⟩
            · intro hcon
              rcases hsx with h | h <;> subst h <;> simp at hcon
            · simp
              rcases hsx with h | h <;> subst h <;> simp
            · simp
          · rw [← hrl]; exact hchain

set_option maxHeartbeats 1000000 in
lemma bres_ymajor (dx dy sx sy x1 y1 : Int)
    (hdx : 0 ≤ dx) (hdy : dy ≤ 0) (hmaj : dx ≤ -dy)
    (hsx : sx = 1 ∨ sx = -1) (hsy : sy = 1 ∨ sy = -1) :
    ∀ (n : Nat) (p q x0 y0 err : Int),
      0 ≤ p → p ≤ dx → 0 ≤ q → q ≤ -dy →
      x1 = x0 + sx * p → y1 = y0 + sy * q →
      err = dx + dy - p * dy - q * dx →
      2 * err ≤ dx →
      q.toNat < n →
      (bresList x1 y1 dx dy sx sy n x0 y0 err).length = q.toNat + 1 ∧
      (bresList x1 y1 dx dy sx sy n x0 y0 err).head? = some (x0, y0) ∧
      (bresList x1 y1 dx dy sx sy n x0 y0 err).getLast? = some (x1, y1) ∧
      List.Chain' adj8 (bresList x1 y1 dx dy sx sy n x0 y0 err) := by
  intro n
  induction n with
  | zero => intro p q x0 y0 err hp0 hpdx hq0 hqdy hx hy herr hK hfuel; omega
  | succ n ih =>
    intro p q x0 y0 err hp0 hpdx hq0 hqdy hx hy herr hK hfuel
    by_cases hq : q = 0
    · have hp : p = 0 := by
        by_contra hpne
        have hp1 : 1 ≤ p := by omega
        have hple : (1 : Int) - p ≤ 0 := by omega
        have h1 : 0 ≤ (1 - p) * dy := by nlinarith
        have herrge : dx ≤ err := by
          subst hq
          simp at herr
          nlinarith
        have hdxz : dx ≤ 0 := by linarith
        omega
      have hxx : x1 = x0 := by
        subst hp
        simpa using hx
      have hyy : y1 = y0 := by
        subst hq
        simpa using hy
      rw [bresList]
      rw [if_pos ⟨hxx.symm, hyy.symm⟩]
      subst hq
      refine ⟨by simp, by simp, by simp [hxx, hyy], by simp⟩
    · have hq1 : 1 ≤ q := by omega
      have hdyneg : dy ≤ -1 := by omega
      have hyne : y0 ≠ y1 := by
        rcases hsy with h | h <;> subst h <;> intro hcon <;> rw [hcon] at hy <;> omega
      have hnotdone : ¬ (x0 = x1 ∧ y0 = y1) := fun hcon => hyne hcon.2
      rw [bresList]
      rw [if_neg hnotdone]
      simp only []
      by_cases hbr1 : dy ≤ 2 * err
      · -- x advances too: diagonal step
        have hp1 : 1 ≤ p := by
          by_contra hpne
          have hpz : p = 0 := by omega
          have hqdx : dx ≤ q * dx := le_mul_of_one_le_left hdx hq1
          have herrle : err ≤ dy := by
            subst hpz
            simp at herr
            linarith
          linarith
        have hxne : x0 ≠ x1 := by
          rcases hsx with h | h <;> subst h <;> intro hcon <;> rw [hcon] at hx <;> omega
        rw [if_pos hbr1, if_neg hxne, if_pos hK, if_neg hyne]
        have hrec := ih (p - 1) (q - 1) (x0 + sx) (y0 + sy) (err + dy + dx)
          (by omega) (by omega) (by omega) (by omega)
          (by rw [hx]; ring) (by rw [hy]; ring)
          (by rw [herr]; ring)
          (by linarith)
          (by omega)
        obtain ⟨hlen, hhead, hlast, hchain⟩ := hrec
        obtain ⟨r, rest2, hrl⟩ : ∃ r rest2,
            bresList x1 y1 dx dy sx sy n (x0 + sx) (y0 + sy) (err + dy + dx) =
              r :: rest2 := by
          cases hl : bresList x1 y1 dx dy sx sy n (x0 + sx) (y0 + sy) (err + dy + dx) with
          | nil => rw [hl] at hhead; simp at hhead
          | cons r rest2 => exact ⟨r, rest2, rfl⟩
        have hr : r = (x0 + sx, y0 + sy) := by
          rw [hrl] at hhead
          simpa using hhead
        refine ⟨?_, ?_, ?_, ?_⟩
        · rw [List.length_cons, hlen]; omega
        · rfl
        · rw [hrl, List.getLast?_cons_cons, ← hrl, hlast]
        · rw [hrl, List.chain'_cons]
          constructor
          · rw [hr]
            refine ⟨?_, ?_, ?_⟩
            · intro hcon
              rcases hsx with h | h <;> subst h <;> simp at hcon
            · simp
              rcases hsx with h | h <;> subst h <;> simp
            · simp
              rcases hsy with h | h <;> subst h <;> simp
          · rw [← hrl]; exact hchain
      · -- y-only step
        have hdx2 : 2 * err ≤ dx := by linarith
        rw [if_neg hbr1, if_pos hdx2, if_neg hyne]
        have hrec := ih p (q - 1) x0 (y0 + sy) (err + dx)
          (by omega) (by omega) (by omega) (by omega)
          (by rw [hx]) (by rw [hy]; ring)
          (by rw [herr]; ring)
          (by linarith)
          (by omega)
        obtain ⟨hlen, hhead, hlast, hchain⟩ := hrec
        obtain ⟨r, rest2, hrl⟩ : ∃ r rest2,
            bresList x1 y1 dx dy sx sy n x0 (y0 + sy) (err + dx) =
              r :: rest2 := by
          cases hl : bresList x1 y1 dx dy sx sy n x0 (y0 + sy) (err + dx) with
          | nil => rw [hl] at hhead; simp at hhead
          | cons r rest2 => exact ⟨r, rest2, rfl⟩
        have hr : r = (x0, y0 + sy) := by
          rw [hrl] at hhead
          simpa using hhead
        refine ⟨?_, ?_, ?_, ?_⟩
        · rw [List.length_cons, hlen]; omega
        · rfl
        · rw [hrl, List.getLast?_cons_cons, ← hrl, hlast]
        · rw [hrl, List.chain'_cons]
          constructor
          · rw [hr]
            refine ⟨?_, ?_, ?_⟩
            · intro hcon
              rcases hsy with h | h <;> subst h <;> simp at hcon
            · simp
            · simp
              rcases hsy with h | h <;> subst h <;> simp
          · rw [← hrl]; exact hchain

lemma mem_of_head?_eq {α : Type} {l : List α} {a : α} (h : l.head? = some a) :
    a ∈ l := by
  cases l with
  | nil => simp at h
  | cons x t =>
    simp at h
    simp [h]

lemma mem_of_getLast?_eq {α : Type} {l : List α} {a : α}
    (h : l.getLast? = some a) : a ∈ l := by
  induction l with
  | nil => simp at h
  | cons x t ih =>
    cases t with
    | nil =>
      simp at h
      simp [h]
    | cons y u =>
      rw [List.getLast?_cons_cons] at h
      exact List.mem_cons_of_mem _ (ih h)

set_option maxHeartbeats 1000000 in
lemma bres_spec (dx dy sx sy x0 y0 x1 y1 : Int)
    (hdx : 0 ≤ dx) (hdy : dy ≤ 0)
    (hsx : sx = 1 ∨ sx = -1) (hsy : sy = 1 ∨ sy = -1)
    (hx : x1 = x0 + sx * dx) (hy : y1 = y0 + sy * (-dy)) :
    (bresList x1 y1 dx dy sx sy ((max dx (-dy)).toNat + 1) x0 y0
      (dx + dy)).length = (max dx (-dy)).toNat + 1 ∧
    (bresList x1 y1 dx dy sx sy ((max dx (-dy)).toNat + 1) x0 y0
      (dx + dy)).head? = some (x0, y0) ∧
    (bresList x1 y1 dx dy sx sy ((max dx (-dy)).toNat + 1) x0 y0
      (dx + dy)).getLast? = some (x1, y1) ∧
    List.Chain' adj8 (bresList x1 y1 dx dy sx sy ((max dx (-dy)).toNat + 1)
      x0 y0 (dx + dy)) := by
  by_cases hmaj : -dy ≤ dx
  · have hmx : max dx (-dy) = dx := max_eq_left hmaj
    have hres := bres_xmajor dx dy sx sy x1 y1 hdx hdy hmaj hsx hsy
      ((max dx (-dy)).toNat + 1) dx (-dy) x0 y0 (dx + dy)
      hdx (le_refl dx) (by omega) (le_refl (-dy))
      hx hy (by ring) (by linarith) (by rw [hmx]; omega)
    rw [hmx]
    rw [hmx] at hres
    exact hres
  · have hlt : dx ≤ -dy := le_of_lt (not_le.mp hmaj)
    have hmx : max dx (-dy) = -dy := max_eq_right hlt
    have hres := bres_ymajor dx dy sx sy x1 y1 hdx hdy hlt hsx hsy
      ((max dx (-dy)).toNat + 1) dx (-dy) x0 y0 (dx + dy)
      hdx (le_refl dx) (by omega) (le_refl (-dy))
      hx hy (by ring) (by linarith) (by rw [hmx]; omega)
    rw [hmx]
    rw [hmx] at hres
    exact hres

set_option maxHeartbeats 1000000 in
lemma drawLinePlots_spec (ax ay bx byy : Int) :
    (drawLinePlots ax ay bx byy).length =
      max (bx - ax).natAbs (byy - ay).natAbs + 1 ∧
    (drawLinePlots ax ay bx byy).head? = some (ax, ay) ∧
    (drawLinePlots ax ay bx byy).getLast? = some (bx, byy) ∧
    List.Chain' adj8 (drawLinePlots ax ay bx byy) := by
  have hres := bres_spec (if 0 < bx - ax then bx - ax else ax - bx)
    (-(if 0 < byy - ay then byy - ay else ay - byy))
    (if ax < bx then (1 : Int) else -1) (if ay < byy then (1 : Int) else -1)
    ax ay bx byy
    (by split <;> omega) (by split <;> omega)
    (by split <;> simp) (by split <;> simp)
    (by
      by_cases h : ax < bx
      · rw [if_pos h, if_pos (by omega : (0 : Int) < bx - ax)]
        ring
      · rw [if_neg h, if_neg (by omega : ¬ (0 : Int) < bx - ax)]
        ring)
    (by
      by_cases h : ay < byy
      · rw [if_pos h, neg_neg, if_pos (by omega : (0 : Int) < byy - ay)]
        ring
      · rw [if_neg h, neg_neg, if_neg (by omega : ¬ (0 : Int) < byy - ay)]
        ring)
  have hlen : ((max (if 0 < bx - ax then bx - ax else ax - bx)
      (-(-(if 0 < byy - ay then byy - ay else ay - byy)))).toNat + 1) =
      max (bx - ax).natAbs (byy - ay).natAbs + 1 := by
    rw [neg_neg]
    rcases le_total (if 0 < bx - ax then bx - ax else ax - bx)
        (if 0 < byy - ay then byy - ay else ay - byy) with hm | hm
    · rw [max_eq_right hm]
      revert hm
      split <;> split <;> intro hm <;> omega
    · rw [max_eq_left hm]
      revert hm
      split <;> split <;> intro hm <;> omega
  rw [drawLinePlots]
  refine ⟨?_, hres.2.1, hres.2.2.1, hres.2.2.2⟩
  rw [hres.1]
  rw [neg_neg] at hlen ⊢
  exact hlen

/-- Claim C7: graphics_draw_line plots both endpoints, the plotted coordinates
form an 8-neighborhood-connected path starting at a and ending at b, and
the number of plotted pixels is max(|b.x - a.x|, |b.y - a.y|) + 1. -/
theorem c7_draw_line_path (a b : Int × Int) :
    a ∈ drawLinePlots a.1 a.2 b.1 b.2 ∧
    b ∈ drawLinePlots a.1 a.2 b.1 b.2 ∧
    (drawLinePlots a.1 a.2 b.1 b.2).head? = some a ∧
    (drawLinePlots a.1 a.2 b.1 b.2).getLast? = some b ∧
    (drawLinePlots a.1 a.2 b.1 b.2).length =
      max (b.1 - a.1).natAbs (b.2 - a.2).natAbs + 1 ∧
    List.Chain' adj8 (drawLinePlots a.1 a.2 b.1 b.2) := by
  obtain ⟨hlen, hhead, hlast, hchain⟩ := drawLinePlots_spec a.1 a.2 b.1 b.2
  exact ⟨mem_of_head?_eq hhead, mem_of_getLast?_eq hlast, hhead, hlast,
    hlen, hchain⟩

